import Mathlib

/-!
Shallow embedding of the agent-process supervisor (src-tauri/src/process.rs)
and the worktree / snapshot / merge manager (src-tauri/src/worktree.rs) of the
ideate repository.  External effects (the OS process table, git invocations)
are modelled by explicit environment records; each Rust command becomes a pure
function from that environment to its result together with the externally
visible actions it performs (registry updates, emitted events, signals sent,
files written).
-/

namespace Ideate

/-! ## Process supervisor (process.rs) -/

/-- Payload of the `agent-exit` notification (`AgentExitEvent` in models.rs). -/
structure AgentExitEvent where
  process_id : String
  exit_code : Option Int
  success : Bool
deriving Repr, DecidableEq

/-- Return value of `wait_agent` (`WaitAgentResult` in models.rs). -/
structure WaitAgentResult where
  process_id : String
  exit_code : Option Int
  success : Bool
deriving Repr, DecidableEq

/-- Return value of `kill_agent` (`KillAgentResult` in models.rs). -/
structure KillAgentResult where
  success : Bool
  message : String
deriving Repr, DecidableEq

/-- What polling a registered child with `try_wait` eventually observes:
either the process exits with an optional exit code (`status.code()`) and a
success flag (`status.success()`), or `try_wait` reports an error. -/
inductive TermObs where
  | exited (code : Option Int) (succ : Bool)
  | errWait (msg : String)
deriving Repr, DecidableEq

/-- A registered OS child process: its terminal observation under polling, and
whether it leaves within the 5s grace window after the group SIGTERM that
`kill_agent_blocking` sends. -/
structure ProcHandle where
  termObs : TermObs
  gracefulWithinTimeout : Bool
deriving Repr, DecidableEq

/-- The `PROCESSES` registry: process id to child handle
(`Mutex<HashMap<String, Child>>` in process.rs). -/
abbrev Registry := List (String × ProcHandle)

/-- `processes.get(&process_id)` on the registry map. -/
def lookupProc : Registry → String → Option ProcHandle
  | [], _ => none
  | (k, v) :: rest, id => if k = id then some v else lookupProc rest id

/-- `processes.remove(&process_id)` on the registry map. -/
def removeProc (reg : Registry) (id : String) : Registry :=
  reg.filter (fun p => p.1 != id)

/-- `processes.insert(process_id, child)` as performed by `spawn_agent`. -/
def registerProc (reg : Registry) (id : String) (h : ProcHandle) : Registry :=
  (id, h) :: reg

/-- Outcome of `kill_agent_blocking` (process.rs lines 269-353): the returned
result, the registry afterwards, and the signals sent to the process group. -/
structure KillBlockingOut where
  result : Except String KillAgentResult
  reg : Registry
  signals : List String

/-- `kill_agent_blocking` (process.rs): a missing id returns
success=false with a "not found" message and sends nothing; otherwise the
whole process group gets SIGTERM, the child is polled for up to 5s, and a
still-running group gets SIGKILL; the entry is removed in every present case. -/
def kill_agent_blocking (reg : Registry) (process_id : String) : KillBlockingOut :=
  match lookupProc reg process_id with
  | none =>
    { result := Except.ok { success := false,
                            message := "Process " ++ process_id ++ " not found" },
      reg := reg, signals := [] }
  | some child =>
    match child.termObs with
    | TermObs.errWait msg =>
      { result := Except.ok { success := false,
                              message := "Error waiting for process: " ++ msg },
        reg := removeProc reg process_id, signals := ["SIGTERM"] }
    | TermObs.exited _ _ =>
      if child.gracefulWithinTimeout then
        { result := Except.ok { success := true,
                                message := "Process group terminated gracefully with SIGTERM" },
          reg := removeProc reg process_id, signals := ["SIGTERM"] }
      else
        { result := Except.ok { success := true,
                                message := "Process group killed with SIGKILL after timeout" },
          reg := removeProc reg process_id, signals := ["SIGTERM", "SIGKILL"] }

/-- Outcome of the `kill_agent` command: result, registry, signals, and the
`agent-exit` events it emits. -/
structure KillAgentOut where
  result : Except String KillAgentResult
  reg : Registry
  signals : List String
  events : List AgentExitEvent

/-- `kill_agent` (process.rs lines 248-266): runs `kill_agent_blocking`, and
when the returned result has success=true emits one `agent-exit` event with
`exit_code: None` and `success: false` ("Killed, not natural exit"). -/
def kill_agent (reg : Registry) (process_id : String) : KillAgentOut :=
  { result := (kill_agent_blocking reg process_id).result,
    reg := (kill_agent_blocking reg process_id).reg,
    signals := (kill_agent_blocking reg process_id).signals,
    events :=
      match (kill_agent_blocking reg process_id).result with
      | Except.ok r =>
        if r.success then
          [{ process_id := process_id, exit_code := none, success := false }]
        else []
      | Except.error _ => [] }

/-- Outcome of the `wait_agent` command: result, registry afterwards, and the
`agent-exit` events it emits. -/
structure WaitAgentOut where
  result : Except String WaitAgentResult
  reg : Registry
  events : List AgentExitEvent

/-- `wait_agent` (process.rs lines 181-244): polls under a briefly-held lock.
A missing id returns success=false with no exit code; a natural exit removes
the entry and returns the status; a `try_wait` error removes the entry and
propagates the error.  Every Ok return is followed by one `agent-exit`
emission built from the returned result. -/
def wait_agent (reg : Registry) (process_id : String) : WaitAgentOut :=
  match lookupProc reg process_id with
  | none =>
    { result := Except.ok { process_id := process_id, exit_code := none, success := false },
      reg := reg,
      events := [{ process_id := process_id, exit_code := none, success := false }] }
  | some child =>
    match child.termObs with
    | TermObs.exited code succ =>
      { result := Except.ok { process_id := process_id, exit_code := code, success := succ },
        reg := removeProc reg process_id,
        events := [{ process_id := process_id, exit_code := code, success := succ }] }
    | TermObs.errWait msg =>
      { result := Except.error ("Failed to wait for process: " ++ msg),
        reg := removeProc reg process_id,
        events := [] }

/-! ## Worktree manager (worktree.rs) -/

/-- `sanitize_branch_name` (worktree.rs lines 33-39): every character that is
not alphanumeric, a hyphen or an underscore becomes a hyphen, and the result
is lower-cased. -/
def sanitize_branch_name (story_id : String) : String :=
  String.mk ((story_id.toList.map fun c =>
    if c.isAlphanum || c == '-' || c == '_' then c else '-').map Char.toLower)

/-- The branch name `prepare_story_worktree` computes (worktree.rs line 85). -/
def prepare_branch_name (story_id : String) : String :=
  "story/" ++ sanitize_branch_name story_id

/-- The leaf directory name of the worktree path `prepare_story_worktree`
computes under `.ideate-worktrees` (worktree.rs line 86). -/
def prepare_worktree_leaf (story_id : String) : String :=
  sanitize_branch_name story_id

/-- Environment for `finalize_story_worktree`: what the filesystem and git
report at each step of the function. -/
structure FinalizeEnv where
  worktreeExists : Bool
  hasChanges : Bool
  baseRef : Except String String
  mergeSucceeds : Bool
  mergeStderr : String

/-- Observable outcome of `finalize_story_worktree`: its result and whether a
merge abort, worktree removal and branch deletion were performed. -/
structure FinalizeOut where
  result : Except String Unit
  mergeAborted : Bool
  worktreeRemoved : Bool
  branchDeleted : Bool
  branchDeleteForced : Bool

/-- The shared tail of `finalize_story_worktree` (worktree.rs lines 208-236):
removes the worktree when it exists and deletes the branch, forced when
success is false. -/
def finalizeCleanup (env : FinalizeEnv) (success : Bool) : FinalizeOut :=
  { result := Except.ok (), mergeAborted := false,
    worktreeRemoved := env.worktreeExists,
    branchDeleted := true, branchDeleteForced := !success }

/-- `finalize_story_worktree` (worktree.rs lines 142-237): on success with an
existing worktree holding changes, commits them and merges the story branch
into the base ref; a failed merge is aborted and reported as an error before
any worktree removal or branch deletion; otherwise the cleanup tail runs. -/
def finalize_story_worktree (env : FinalizeEnv) (success : Bool)
    (branch_name : String) : FinalizeOut :=
  if success && env.worktreeExists && env.hasChanges then
    match env.baseRef with
    | Except.error e =>
      { result := Except.error e, mergeAborted := false, worktreeRemoved := false,
        branchDeleted := false, branchDeleteForced := false }
    | Except.ok _ =>
      if env.mergeSucceeds then finalizeCleanup env success
      else
        { result := Except.error ("Merge conflict, changes kept in branch "
            ++ branch_name ++ ": " ++ env.mergeStderr),
          mergeAborted := true, worktreeRemoved := false,
          branchDeleted := false, branchDeleteForced := false }
  else finalizeCleanup env success

/-! ## Snapshot manager (worktree.rs) -/

/-- `SnapshotResult` (worktree.rs lines 14-17). -/
structure SnapshotResult where
  snapshot_ref : String
  snapshot_type : String
deriving Repr, DecidableEq

/-- Environment for `create_story_snapshot`: git status and command results. -/
structure SnapshotEnv where
  hasChanges : Bool
  stashPushSucceeds : Bool
  stashPushStderr : String
  headOk : Bool
  headCommit : String

/-- Outcome of `create_story_snapshot`: its result and whether a
`git stash apply` was issued to restore the working copy. -/
structure SnapshotOut where
  result : Except String SnapshotResult
  stashApplied : Bool

/-- `create_story_snapshot` (worktree.rs lines 668-725): with uncommitted
changes it pushes a stash labeled `ideate-snapshot-<story_id>` and immediately
applies it back, returning type "stash"; on a clean copy it records the HEAD
commit, returning type "commit". -/
def create_story_snapshot (env : SnapshotEnv) (story_id : String) : SnapshotOut :=
  if env.hasChanges then
    if env.stashPushSucceeds then
      { result := Except.ok { snapshot_ref := "ideate-snapshot-" ++ story_id,
                              snapshot_type := "stash" },
        stashApplied := true }
    else
      { result := Except.error ("Failed to create stash: " ++ env.stashPushStderr),
        stashApplied := false }
  else
    if env.headOk then
      { result := Except.ok { snapshot_ref := env.headCommit,
                              snapshot_type := "commit" },
        stashApplied := false }
    else
      { result := Except.error "Failed to get HEAD commit", stashApplied := false }

/-- `charListStartsWith hay needle`: the needle is an initial run of the hay. -/
def charListStartsWith : List Char → List Char → Bool
  | _, [] => true
  | [], _ :: _ => false
  | a :: as, b :: bs => a == b && charListStartsWith as bs

/-- `charListHasSub hay needle`: the needle occurs contiguously in the hay. -/
def charListHasSub : List Char → List Char → Bool
  | [], needle => needle.isEmpty
  | a :: t, needle => charListStartsWith (a :: t) needle || charListHasSub t needle

/-- Rust `str::contains(&str)`: substring containment. -/
def strContains (hay needle : String) : Bool :=
  charListHasSub hay.toList needle.toList

/-- The scan over `git stash list` output in `rollback_story_changes` and
`discard_story_snapshot`: the index of the first line containing the label. -/
def findStashIndex : List String → String → Nat → Option Nat
  | [], _, _ => none
  | line :: rest, needle, idx =>
    if strContains line needle then some idx else findStashIndex rest needle (idx + 1)

/-- Environment for `rollback_story_changes`: the stash list and the outcomes
of the git commands it may run. -/
structure RollbackEnv where
  stashList : List String
  popSucceeds : Bool
  popStderr : String
  resetSnapshotOk : Bool
  resetSnapshotStderr : String

/-- Outcome of `rollback_story_changes`: its result, whether a hard reset and
an untracked-file clean ran, and which stash (by index) was popped. -/
structure RollbackOut where
  result : Except String Unit
  didReset : Bool
  didClean : Bool
  poppedStash : Option Nat

/-- `rollback_story_changes` (worktree.rs lines 729-804): for a stash
snapshot it hard-resets to HEAD, cleans untracked files, scans the stash list
for the label and pops the first match — when no line matches it silently
returns Ok without popping anything; for a commit snapshot it hard-resets to
the recorded commit and cleans. -/
def rollback_story_changes (env : RollbackEnv) (snapshot_ref snapshot_type : String) :
    RollbackOut :=
  if snapshot_type = "stash" then
    match findStashIndex env.stashList snapshot_ref 0 with
    | some idx =>
      if env.popSucceeds then
        { result := Except.ok (), didReset := true, didClean := true,
          poppedStash := some idx }
      else
        { result := Except.error ("Failed to restore from stash: " ++ env.popStderr),
          didReset := true, didClean := true, poppedStash := some idx }
    | none =>
      { result := Except.ok (), didReset := true, didClean := true,
        poppedStash := none }
  else
    if env.resetSnapshotOk then
      { result := Except.ok (), didReset := true, didClean := true,
        poppedStash := none }
    else
      { result := Except.error ("Failed to reset to snapshot: "
          ++ env.resetSnapshotStderr),
        didReset := true, didClean := false, poppedStash := none }

/-! ## Merge coordinator (worktree.rs) -/

/-- `ConflictFileInfo` (worktree.rs lines 905-910). -/
structure ConflictFileInfo where
  file_path : String
  ours_content : String
  theirs_content : String
  base_content : String
deriving Repr, DecidableEq

/-- `MergeConflictAnalysis` (worktree.rs lines 915-919); the count is a `u32`
in the source, far below overflow for any repository, so modelled as `Nat`. -/
structure MergeConflictAnalysis where
  branch_name : String
  conflicting_files : List ConflictFileInfo
  non_conflicting_count : Nat
deriving Repr, DecidableEq

/-- Environment for `analyze_merge_conflicts`: merge-base resolution, the two
changed-file lists, and the content oracle `get_file_at_ref`. -/
structure AnalyzeEnv where
  mergeBaseOk : Bool
  baseCommit : String
  mainBranch : String
  branchFiles : List String
  mainFiles : List String
  fileAt : String → String → String

/-- The classification loop of `analyze_merge_conflicts` (worktree.rs lines
971-988): a branch file also changed on main becomes a conflicting entry with
base/ours/theirs content, every other branch file bumps the count. -/
def classifyFiles (env : AnalyzeEnv) (branch_name : String) :
    List String → List ConflictFileInfo × Nat
  | [] => ([], 0)
  | f :: rest =>
    let r := classifyFiles env branch_name rest
    if env.mainFiles.contains f then
      ({ file_path := f, ours_content := env.fileAt env.mainBranch f,
         theirs_content := env.fileAt branch_name f,
         base_content := env.fileAt env.baseCommit f } :: r.1, r.2)
    else (r.1, r.2 + 1)

/-- `analyze_merge_conflicts` (worktree.rs lines 923-995). -/
def analyze_merge_conflicts (env : AnalyzeEnv) (branch_name : String) :
    Except String MergeConflictAnalysis :=
  if env.mergeBaseOk then
    Except.ok { branch_name := branch_name,
                conflicting_files := (classifyFiles env branch_name env.branchFiles).1,
                non_conflicting_count := (classifyFiles env branch_name env.branchFiles).2 }
  else
    Except.error ("Cannot find common ancestor between " ++ env.mainBranch
      ++ " and " ++ branch_name)

/-- `FileResolution` (worktree.rs lines 1014-1017). -/
structure FileResolution where
  file_path : String
  strategy : String
deriving Repr, DecidableEq

/-- Environment for `merge_with_resolutions`: the initial no-commit merge
outcome, the two `git show` content oracles (`HEAD:path` and `branch:path`,
`none` for a failing show), and the final commit outcome. -/
structure MergeEnv where
  mergeCleanSuccess : Bool
  showOurs : String → Option String
  showTheirs : String → Option String
  commitSucceeds : Bool
  commitStderr : String

/-- Rust `str::trim_end` as used on the "ours" content (worktree.rs line
1089): trailing whitespace removed. -/
def rustTrimEnd (s : String) : String :=
  String.mk ((s.toList.reverse.dropWhile Char.isWhitespace).reverse)

/-- The resolution loop of `merge_with_resolutions` (worktree.rs lines
1045-1103), collecting the files written to disk by the "both" strategy; an
unknown strategy stops the loop with an error. -/
def applyResolutions (env : MergeEnv) :
    List FileResolution → Except String (List (String × String))
  | [] => Except.ok []
  | r :: rest =>
    if r.strategy = "ours" then applyResolutions env rest
    else if r.strategy = "theirs" then applyResolutions env rest
    else if r.strategy = "both" then
      match applyResolutions env rest with
      | Except.ok ws =>
        Except.ok ((r.file_path,
          rustTrimEnd ((env.showOurs r.file_path).getD "") ++ "\n"
            ++ ((env.showTheirs r.file_path).getD "")) :: ws)
      | Except.error e => Except.error e
    else Except.error ("Unknown resolution strategy: " ++ r.strategy)

/-- Observable outcome of `merge_with_resolutions`: its result, whether a
merge commit was created, whether a `git merge --abort` was issued, and the
files written by the "both" strategy. -/
structure MergeOut where
  result : Except String Unit
  committed : Bool
  abortIssued : Bool
  writtenFiles : List (String × String)

/-- `merge_with_resolutions` (worktree.rs lines 1021-1122): a clean no-commit
merge is committed at once; otherwise the resolutions are applied and a final
commit is attempted, whose failure with unmerged/conflict diagnostics yields
the dedicated unresolved-conflicts error.  No abort is ever issued by this
function. -/
def merge_with_resolutions (env : MergeEnv) (branch_name : String)
    (resolutions : List FileResolution) : MergeOut :=
  if env.mergeCleanSuccess then
    { result := Except.ok (), committed := true, abortIssued := false,
      writtenFiles := [] }
  else
    match applyResolutions env resolutions with
    | Except.error e =>
      { result := Except.error e, committed := false, abortIssued := false,
        writtenFiles := [] }
    | Except.ok ws =>
      if env.commitSucceeds then
        { result := Except.ok (), committed := true, abortIssued := false,
          writtenFiles := ws }
      else if strContains env.commitStderr "unmerged"
          || strContains env.commitStderr "conflict" then
        { result := Except.error
            "Some conflicts remain unresolved. Please resolve all conflicting files.",
          committed := false, abortIssued := false, writtenFiles := ws }
      else
        { result := Except.error ("Failed to commit merge: " ++ env.commitStderr),
          committed := false, abortIssued := false, writtenFiles := ws }

/-- A character that sanitization keeps unchanged: alphanumeric, hyphen or
underscore, and already lower-case. -/
def lowerSafeChar (c : Char) : Bool :=
  (c.isAlphanum || c == '-' || c == '_') && decide (c.toLower = c)

/-- Concrete merge environment with conflicting content "a" (ours) and "b"
(theirs) on every path, used to exercise the "both" strategy. -/
def envBoth : MergeEnv :=
  { mergeCleanSuccess := false, showOurs := fun _ => some "a",
    showTheirs := fun _ => some "b", commitSucceeds := true, commitStderr := "" }

/-! ## Helper lemmas -/

theorem lookupProc_removeProc_self (reg : Registry) (id : String) :
    lookupProc (removeProc reg id) id = none := by
  induction reg with
  | nil => rfl
  | cons hd tl ih =>
    obtain ⟨k, v⟩ := hd
    by_cases hk : k = id
    · simpa [removeProc, List.filter_cons, hk] using ih
    · simpa [removeProc, List.filter_cons, hk, lookupProc] using ih

/-! ## Claims about the process supervisor -/

/-- C1 counterexample: after `kill_agent` has removed the id and emitted its
exit notification, a `wait_agent` on the same id emits a second exit
notification, so two notifications are emitted over one process lifetime. -/
theorem exit_event_emitted_twice_kill_then_wait :
    (kill_agent (registerProc [] "p" ⟨TermObs.exited (some 0) true, true⟩) "p").events =
      [{ process_id := "p", exit_code := none, success := false }] ∧
    (wait_agent
        (kill_agent (registerProc [] "p" ⟨TermObs.exited (some 0) true, true⟩) "p").reg
        "p").events =
      [{ process_id := "p", exit_code := none, success := false }] := by
  exact ⟨rfl, rfl⟩

/-- C1 (amended): each single invocation of `wait_agent` or `kill_agent`
emits at most one exit notification, and any emitted notification's id is
absent from the registry after the call (removal precedes emission); but the
notifications are not at-most-once per process lifetime, since a `wait_agent`
that finds the id already gone still emits one (see the counterexample). -/
theorem exit_event_per_call_after_removal (reg : Registry) (id : String) :
    (wait_agent reg id).events.length ≤ 1 ∧
    (kill_agent reg id).events.length ≤ 1 ∧
    ((wait_agent reg id).events.all fun e =>
      (lookupProc (wait_agent reg id).reg e.process_id).isNone) = true ∧
    ((kill_agent reg id).events.all fun e =>
      (lookupProc (kill_agent reg id).reg e.process_id).isNone) = true := by
  rcases hl : lookupProc reg id with _ | ⟨tobs, grace⟩
  · refine ⟨?_, ?_, ?_, ?_⟩ <;>
      simp [wait_agent, kill_agent, kill_agent_blocking, hl]
  · rcases tobs with ⟨code, succ⟩ | msg <;> rcases grace with _ | _ <;>
      refine ⟨?_, ?_, ?_, ?_⟩ <;>
      simp [wait_agent, kill_agent, kill_agent_blocking, hl,
        lookupProc_removeProc_self]

/-- C6: operating on an id that is not registered is benign: `kill_agent`
returns a non-error result with success=false and an explanatory message and
sends no signal, and `wait_agent` returns a non-error result with
success=false and no exit code. -/
theorem missing_id_is_benign (reg : Registry) (id : String)
    (h : lookupProc reg id = none) :
    (kill_agent reg id).result =
      Except.ok { success := false, message := "Process " ++ id ++ " not found" } ∧
    (kill_agent reg id).signals = [] ∧
    (wait_agent reg id).result =
      Except.ok { process_id := id, exit_code := none, success := false } := by
  refine ⟨?_, ?_, ?_⟩ <;> simp [kill_agent, kill_agent_blocking, wait_agent, h]

/-- C6 witness: the empty registry misses any id. -/
theorem missing_id_is_benign_check :
    (kill_agent ([] : Registry) "p1").result =
      Except.ok { success := false, message := "Process " ++ "p1" ++ " not found" } ∧
    (kill_agent ([] : Registry) "p1").signals = [] ∧
    (wait_agent ([] : Registry) "p1").result =
      Except.ok { process_id := "p1", exit_code := none, success := false } :=
  missing_id_is_benign ([] : Registry) "p1" rfl

/-- C10: whenever `kill_agent` reports success=true, the `agent-exit` event it
emits carries `exit_code = none` and `success = false`, regardless of the
process or its natural exit status. -/
theorem kill_exit_event_shape (reg : Registry) (id : String) (r : KillAgentResult)
    (h1 : (kill_agent reg id).result = Except.ok r) (h2 : r.success = true) :
    (kill_agent reg id).events =
      [{ process_id := id, exit_code := none, success := false }] := by
  have hb : (kill_agent_blocking reg id).result = Except.ok r := h1
  simp [kill_agent, hb, h2]

/-- C10 witness: killing a registered process that leaves gracefully. -/
theorem kill_exit_event_shape_check :
    (kill_agent (registerProc [] "p" ⟨TermObs.exited (some 7) true, true⟩) "p").events =
      [{ process_id := "p", exit_code := none, success := false }] :=
  kill_exit_event_shape (registerProc [] "p" ⟨TermObs.exited (some 7) true, true⟩) "p"
    { success := true, message := "Process group terminated gracefully with SIGTERM" }
    rfl rfl

/-! ## Claims about the worktree manager -/

/-- C2: finalize with success=true whose merge step fails returns an error,
aborts the in-progress merge, and deletes neither the story branch nor (yet)
the worktree, so the committed work survives on the branch. -/
theorem finalize_merge_failure_preserves_branch (env : FinalizeEnv)
    (branch_name b : String)
    (h1 : env.worktreeExists = true) (h2 : env.hasChanges = true)
    (h3 : env.baseRef = Except.ok b) (h4 : env.mergeSucceeds = false) :
    (finalize_story_worktree env true branch_name).result =
      Except.error ("Merge conflict, changes kept in branch " ++ branch_name
        ++ ": " ++ env.mergeStderr) ∧
    (finalize_story_worktree env true branch_name).mergeAborted = true ∧
    (finalize_story_worktree env true branch_name).branchDeleted = false := by
  refine ⟨?_, ?_, ?_⟩ <;> simp [finalize_story_worktree, h1, h2, h3, h4]

/-- C2 witness: a dirty existing worktree whose merge reports a conflict. -/
theorem finalize_merge_failure_preserves_branch_check :
    (finalize_story_worktree ⟨true, true, Except.ok "main", false, "CONFLICT"⟩
        true "story/s1").result =
      Except.error ("Merge conflict, changes kept in branch " ++ "story/s1"
        ++ ": " ++ "CONFLICT") ∧
    (finalize_story_worktree ⟨true, true, Except.ok "main", false, "CONFLICT"⟩
        true "story/s1").mergeAborted = true ∧
    (finalize_story_worktree ⟨true, true, Except.ok "main", false, "CONFLICT"⟩
        true "story/s1").branchDeleted = false :=
  finalize_merge_failure_preserves_branch
    ⟨true, true, Except.ok "main", false, "CONFLICT"⟩ "story/s1" "main"
    rfl rfl rfl rfl

/-- C4 (code behavior at the failing input): rolling back a stash-kind
snapshot whose label is absent from the stash list hard-resets, cleans, pops
nothing, and returns Ok — it does not report an error as the claim requires. -/
theorem rollback_missing_stash_returns_ok :
    (rollback_story_changes
        { stashList := ["stash@\x7b0\x7d: On main: unrelated"], popSucceeds := true,
          popStderr := "", resetSnapshotOk := true, resetSnapshotStderr := "" }
        "ideate-snapshot-s1" "stash").result = Except.ok () ∧
    (rollback_story_changes
        { stashList := ["stash@\x7b0\x7d: On main: unrelated"], popSucceeds := true,
          popStderr := "", resetSnapshotOk := true, resetSnapshotStderr := "" }
        "ideate-snapshot-s1" "stash").poppedStash = none ∧
    (rollback_story_changes
        { stashList := ["stash@\x7b0\x7d: On main: unrelated"], popSucceeds := true,
          popStderr := "", resetSnapshotOk := true, resetSnapshotStderr := "" }
        "ideate-snapshot-s1" "stash").didReset = true := by
  exact ⟨rfl, rfl, rfl⟩

/-- C5: a checkpoint over uncommitted changes yields a stash-kind snapshot
labeled from the story id and reapplies the stash at once; a checkpoint over a
clean working copy yields a commit-kind snapshot recording HEAD. -/
theorem snapshot_kind_matches_dirtiness (env : SnapshotEnv) (story_id : String) :
    (env.hasChanges = true → env.stashPushSucceeds = true →
      (create_story_snapshot env story_id).result =
        Except.ok { snapshot_ref := "ideate-snapshot-" ++ story_id,
                    snapshot_type := "stash" } ∧
      (create_story_snapshot env story_id).stashApplied = true) ∧
    (env.hasChanges = false → env.headOk = true →
      (create_story_snapshot env story_id).result =
        Except.ok { snapshot_ref := env.headCommit, snapshot_type := "commit" } ∧
      (create_story_snapshot env story_id).stashApplied = false) := by
  constructor
  · intro h1 h2
    refine ⟨?_, ?_⟩ <;> simp [create_story_snapshot, h1, h2]
  · intro h1 h2
    refine ⟨?_, ?_⟩ <;> simp [create_story_snapshot, h1, h2]

/-- C5 witness: a dirty working copy and a clean one. -/
theorem snapshot_kind_matches_dirtiness_check :
    ((create_story_snapshot ⟨true, true, "", true, "abc123"⟩ "s1").result =
      Except.ok { snapshot_ref := "ideate-snapshot-" ++ "s1",
                  snapshot_type := "stash" } ∧
     (create_story_snapshot ⟨true, true, "", true, "abc123"⟩ "s1").stashApplied = true) ∧
    ((create_story_snapshot ⟨false, true, "", true, "abc123"⟩ "s1").result =
      Except.ok { snapshot_ref := "abc123", snapshot_type := "commit" } ∧
     (create_story_snapshot ⟨false, true, "", true, "abc123"⟩ "s1").stashApplied = false) :=
  ⟨(snapshot_kind_matches_dirtiness ⟨true, true, "", true, "abc123"⟩ "s1").1 rfl rfl,
   (snapshot_kind_matches_dirtiness ⟨false, true, "", true, "abc123"⟩ "s1").2 rfl rfl⟩

theorem map_sanitize_of_safe : ∀ l : List Char, l.all lowerSafeChar = true →
    ((l.map fun c =>
      if c.isAlphanum || c == '-' || c == '_' then c else '-').map Char.toLower) = l := by
  intro l
  induction l with
  | nil => intro _; rfl
  | cons c t ih =>
    intro h
    rw [List.all_cons, Bool.and_eq_true] at h
    obtain ⟨hc, ht⟩ := h
    rw [lowerSafeChar, Bool.and_eq_true] at hc
    obtain ⟨hc1, hc2⟩ := hc
    have hlow : c.toLower = c := of_decide_eq_true hc2
    simp only [List.map_cons]
    rw [if_pos hc1, hlow, ih ht]

/-- Sanitization keeps an id made of lower-case alphanumerics, hyphens and
underscores unchanged. -/
theorem sanitize_eq_self_of_safe (s : String)
    (h : s.toList.all lowerSafeChar = true) :
    sanitize_branch_name s = s := by
  unfold sanitize_branch_name
  rw [map_sanitize_of_safe s.toList h]
  obtain ⟨d⟩ := s
  rfl

/-- C7 counterexample: two distinct story ids with the same sanitized branch
name and worktree leaf, so the sanitization is not injective. -/
theorem sanitize_not_injective :
    sanitize_branch_name "a.b" = "a-b" ∧ sanitize_branch_name "a-b" = "a-b" ∧
    ("a.b" : String) ≠ "a-b" ∧
    prepare_branch_name "a.b" = prepare_branch_name "a-b" ∧
    prepare_worktree_leaf "a.b" = prepare_worktree_leaf "a-b" := by
  refine ⟨rfl, rfl, by decide, rfl, rfl⟩

/-- C7 (amended): the branch-name and leaf-name computations are
deterministic functions of the story id, and on ids made only of lower-case
alphanumerics, hyphens and underscores the sanitization is the identity and
hence injective; it is not injective on arbitrary ids. -/
theorem sanitize_injective_on_safe_ids (a b : String)
    (ha : a.toList.all lowerSafeChar = true)
    (hb : b.toList.all lowerSafeChar = true)
    (h : sanitize_branch_name a = sanitize_branch_name b) :
    a = b ∧ prepare_branch_name a = prepare_branch_name b ∧
    prepare_worktree_leaf a = prepare_worktree_leaf b := by
  have ia := sanitize_eq_self_of_safe a ha
  have ib := sanitize_eq_self_of_safe b hb
  have hab : a = b := by rw [← ia, ← ib, h]
  exact ⟨hab, by rw [hab], by rw [hab]⟩

/-- C7 witness: a safe story id. -/
theorem sanitize_injective_on_safe_ids_check :
    ("story-1" : String) = "story-1" ∧
    prepare_branch_name "story-1" = prepare_branch_name "story-1" ∧
    prepare_worktree_leaf "story-1" = prepare_worktree_leaf "story-1" :=
  sanitize_injective_on_safe_ids "story-1" "story-1" (by decide) (by decide) rfl

/-! ## Claims about the merge coordinator -/

theorem classifyFiles_disjoint (env : AnalyzeEnv) (bn : String) :
    ∀ files : List String,
      files.all (fun f => !(env.mainFiles.contains f)) = true →
      classifyFiles env bn files = ([], files.length) := by
  intro files
  induction files with
  | nil => intro _; rfl
  | cons f t ih =>
    intro h
    rw [List.all_cons, Bool.and_eq_true] at h
    obtain ⟨hf, ht⟩ := h
    have hnm : f ∉ env.mainFiles := by simpa using hf
    simp [classifyFiles, hnm, ih ht]

/-- C9: when the files changed on the branch are disjoint from the files
changed on main since the merge base, the analysis reports zero conflicting
files and the full branch changed-file count as non-conflicting. -/
theorem analyze_disjoint_no_conflicts (env : AnalyzeEnv) (branch_name : String)
    (hbase : env.mergeBaseOk = true)
    (hdisj : env.branchFiles.all (fun f => !(env.mainFiles.contains f)) = true) :
    analyze_merge_conflicts env branch_name =
      Except.ok { branch_name := branch_name, conflicting_files := [],
                  non_conflicting_count := env.branchFiles.length } := by
  simp [analyze_merge_conflicts, hbase,
    classifyFiles_disjoint env branch_name env.branchFiles hdisj]

/-- C9 witness: two branch files, neither touched by main. -/
theorem analyze_disjoint_no_conflicts_check :
    analyze_merge_conflicts
        ⟨true, "base", "main", ["x.txt", "y.txt"], ["z.txt"], fun _ _ => ""⟩
        "story/s9" =
      Except.ok { branch_name := "story/s9", conflicting_files := [],
                  non_conflicting_count := 2 } :=
  analyze_disjoint_no_conflicts
    ⟨true, "base", "main", ["x.txt", "y.txt"], ["z.txt"], fun _ _ => ""⟩
    "story/s9" rfl (by decide)

/-- C3 counterexample: a merge whose final commit fails on unmerged files
returns the dedicated unresolved-conflicts error, but no `git merge --abort`
is issued, so the repository is left with the merge still in progress. -/
theorem merge_unresolved_error_without_abort :
    (merge_with_resolutions
        ⟨false, fun _ => none, fun _ => none, false,
          "error: Committing is not possible because you have unmerged files."⟩
        "story/s1" []).result =
      Except.error
        "Some conflicts remain unresolved. Please resolve all conflicting files." ∧
    (merge_with_resolutions
        ⟨false, fun _ => none, fun _ => none, false,
          "error: Committing is not possible because you have unmerged files."⟩
        "story/s1" []).committed = false ∧
    (merge_with_resolutions
        ⟨false, fun _ => none, fun _ => none, false,
          "error: Committing is not possible because you have unmerged files."⟩
        "story/s1" []).abortIssued = false := by
  exact ⟨rfl, rfl, rfl⟩

/-- C3 (amended): when unresolved conflicting files remain after the supplied
resolutions, the final commit attempt fails and `merge_with_resolutions`
returns the taxonomy-specific error with no merge commit created — but it
performs no automatic abort, so the merge stays in progress until the caller
invokes the separate `abort_merge` command. -/
theorem merge_unresolved_error_leaves_merge_open (env : MergeEnv)
    (branch_name : String) (rs : List FileResolution)
    (ws : List (String × String))
    (h1 : env.mergeCleanSuccess = false)
    (h2 : applyResolutions env rs = Except.ok ws)
    (h3 : env.commitSucceeds = false)
    (h4 : strContains env.commitStderr "unmerged" = true) :
    (merge_with_resolutions env branch_name rs).result =
      Except.error
        "Some conflicts remain unresolved. Please resolve all conflicting files." ∧
    (merge_with_resolutions env branch_name rs).committed = false ∧
    (merge_with_resolutions env branch_name rs).abortIssued = false := by
  refine ⟨?_, ?_, ?_⟩ <;> simp [merge_with_resolutions, h1, h2, h3, h4]

/-- C3 witness: a failing commit whose diagnostics mention unmerged files. -/
theorem merge_unresolved_error_leaves_merge_open_check :
    (merge_with_resolutions
        ⟨false, fun _ => none, fun _ => none, false, "fatal: unmerged entries"⟩
        "story/s2" []).result =
      Except.error
        "Some conflicts remain unresolved. Please resolve all conflicting files." ∧
    (merge_with_resolutions
        ⟨false, fun _ => none, fun _ => none, false, "fatal: unmerged entries"⟩
        "story/s2" []).committed = false ∧
    (merge_with_resolutions
        ⟨false, fun _ => none, fun _ => none, false, "fatal: unmerged entries"⟩
        "story/s2" []).abortIssued = false :=
  merge_unresolved_error_leaves_merge_open
    ⟨false, fun _ => none, fun _ => none, false, "fatal: unmerged entries"⟩
    "story/s2" [] [] rfl rfl rfl rfl

theorem applyResolutions_written_content (env : MergeEnv) :
    ∀ (rs : List FileResolution) (ws : List (String × String)) (p c : String),
      applyResolutions env rs = Except.ok ws → (p, c) ∈ ws →
      c = rustTrimEnd ((env.showOurs p).getD "") ++ "\n"
        ++ ((env.showTheirs p).getD "") := by
  intro rs
  induction rs with
  | nil =>
    intro ws p c h hm
    simp only [applyResolutions, Except.ok.injEq] at h
    rw [← h] at hm
    exact absurd hm (List.not_mem_nil _)
  | cons r rest ih =>
    intro ws p c h hm
    by_cases ho : r.strategy = "ours"
    · rw [applyResolutions, if_pos ho] at h
      exact ih ws p c h hm
    · by_cases htr : r.strategy = "theirs"
      · rw [applyResolutions, if_neg ho, if_pos htr] at h
        exact ih ws p c h hm
      · by_cases hbo : r.strategy = "both"
        · rw [applyResolutions, if_neg ho, if_neg htr, if_pos hbo] at h
          rcases ha : applyResolutions env rest with e | ws2
          · rw [ha] at h
            exact absurd h (by simp)
          · rw [ha, Except.ok.injEq] at h
            rw [← h] at hm
            rcases List.mem_cons.mp hm with hhead | htail
            · injection hhead with hp hcv
              subst hp
              exact hcv
            · exact ih ws2 p c ha htail
        · rw [applyResolutions, if_neg ho, if_neg htr, if_neg hbo] at h
          exact absurd h (by simp)

/-- C8 (amended): a file resolved with the "both" strategy is written with the
main side's (ours) content with trailing whitespace trimmed, then a newline,
then the branch side's (theirs) content — not the exact concatenation of the
two bodies. -/
theorem both_resolution_written_content (env : MergeEnv)
    (branch_name p c : String) (rs : List FileResolution)
    (h : (p, c) ∈ (merge_with_resolutions env branch_name rs).writtenFiles) :
    c = rustTrimEnd ((env.showOurs p).getD "") ++ "\n"
      ++ ((env.showTheirs p).getD "") := by
  rw [merge_with_resolutions] at h
  by_cases hm : env.mergeCleanSuccess
  · rw [if_pos hm] at h
    exact absurd h (List.not_mem_nil _)
  · rw [if_neg hm] at h
    rcases ha : applyResolutions env rs with e | ws
    · rw [ha] at h
      exact absurd h (List.not_mem_nil _)
    · rw [ha] at h
      have hws : (p, c) ∈ ws := by
        by_cases hc : env.commitSucceeds
        · simpa [hc] using h
        · by_cases hu : strContains env.commitStderr "unmerged"
              || strContains env.commitStderr "conflict"
          · simpa [hc, hu] using h
          · simpa [hc, hu] using h
      exact applyResolutions_written_content env rs ws p c ha hws

/-- C8 witness: ours "a", theirs "b", written as "a", newline, "b". -/
theorem both_resolution_written_content_check :
    ("a\nb" : String) = rustTrimEnd ((some "a").getD "") ++ "\n"
      ++ ((some "b").getD "") :=
  both_resolution_written_content envBoth "story/s3" "f.txt" "a\nb"
    [⟨"f.txt", "both"⟩] (by decide)

/-- C8 counterexample: with ours "a" and theirs "b" the written file is
"a", newline, "b" — not the exact concatenation "ab" of ours and theirs. -/
theorem both_resolution_not_plain_concat :
    (merge_with_resolutions envBoth "story/s3" [⟨"f.txt", "both"⟩]).writtenFiles =
      [("f.txt", "a\nb")] ∧ ("a\nb" : String) ≠ "a" ++ "b" := by
  exact ⟨rfl, by decide⟩

end Ideate
